import Mathlib

/-!
Verification of `prepare_visdrone.py` (the VisDrone → YOLO dataset
converter of this repository): a shallow embedding of
`RangefinderApp/ml_pipeline/scripts/prepare_visdrone.py`.
Python strings are modelled as `String`/`List Char` (the string helpers are
re-implemented by structural recursion so that proofs can evaluate them),
Python integers as `Int`, Python float arithmetic as exact `ℚ` (every
arithmetic value reached by the claims below is either exactly representable
in binary64 or far from a decimal rounding boundary, so the rational model
agrees with CPython's double semantics at every point used), and a function
that can raise an uncaught exception is modelled with `Except Unit`, where
`Except.error ()` marks the raising control path (here: `ZeroDivisionError`
from the normalising divisions).
-/

namespace PrepareVisdrone

deriving instance DecidableEq for Except

/-- Model of Python `str.strip()`: drop whitespace from both ends. -/
def strip (l : List Char) : List Char :=
  ((l.dropWhile Char.isWhitespace).reverse.dropWhile Char.isWhitespace).reverse

/-- Model of Python `str.split(',')`: split into fields at every comma;
the empty string yields one empty field, and leading/trailing/adjacent
commas yield empty fields. -/
def split_commas : List Char → List (List Char)
  | [] => [[]]
  | c :: rest =>
    match split_commas rest with
    | [] => [[c]]
    | g :: gs => if c = ',' then [] :: g :: gs else (c :: g) :: gs

/-- Model of CPython `int(str)`: strip surrounding whitespace, accept an
optional single sign followed by a non-empty run of decimal digits.
(Underscore digit separators and non-ASCII digits are not modelled; no
input in this development uses them.) Returns `none` where CPython raises
`ValueError`, which the source catches and turns into a rejection. -/
def pyInt (s : List Char) : Option Int :=
  let t := strip s
  let core := match t with
    | '-' :: r => r
    | '+' :: r => r
    | _ => t
  if core.isEmpty || !core.all Char.isDigit then none
  else
    let n : Nat := core.foldl (fun acc c => acc * 10 + (c.toNat - '0'.toNat)) 0
    match t with
    | '-' :: _ => some (-(n : Int))
    | _ => some (n : Int)

/-- Table `VISDRONE_TO_SNIPERSCOPE` (module-level constant, lines 167–174):
maps VisDrone class ids to SniperScope class ids; ids without an entry are
dropped. -/
def VISDRONE_TO_SNIPERSCOPE (c : Int) : Option Nat :=
  if c = 1 then some 0        -- pedestrian → person
  else if c = 2 then some 0   -- people → person
  else if c = 4 then some 2   -- car → car
  else if c = 5 then some 3   -- van → truck
  else if c = 6 then some 3   -- truck → truck
  else if c = 9 then some 3   -- bus → truck
  else none

/-- Constant `MIN_BOX_SIZE` (line 179): minimum bounding box dimension in pixels. -/
def MIN_BOX_SIZE : Int := 10

/-- Field access `parts[i]` of the source (line 226): the i-th
comma-separated field of the stripped line. -/
def field (line : String) (i : Nat) : List Char :=
  (split_commas (strip line.data)).getD i []

/-- Parsing stage of `convert_visdrone_annotation` (lines 225–245):
split the stripped line on commas, require ≥ 8 fields, parse fields
0–3 and 5 as integers (x, y, w, h, visdrone_class); fields 4, 6, 7 are
never parsed by the source (those `int(...)` calls are commented out).
Returns `none` exactly where the source returns `None` from this stage. -/
def parse_fields (line : String) : Option (Int × Int × Int × Int × Int) :=
  if (split_commas (strip line.data)).length < 8 then none
  else
    (pyInt (field line 0)).bind fun x =>
    (pyInt (field line 1)).bind fun y =>
    (pyInt (field line 2)).bind fun w =>
    (pyInt (field line 3)).bind fun h =>
    (pyInt (field line 5)).bind fun c =>
    some (x, y, w, h, c)

/-- Clipping step of `convert_visdrone_annotation` (lines 272–277): when the
box leaves the image, clamp the corner to the image and shrink width/height
to the remaining extent; otherwise the box is returned unchanged. -/
def clip_box (x y w h img_width img_height : Int) : Int × Int × Int × Int :=
  if x < 0 ∨ y < 0 ∨ x + w > img_width ∨ y + h > img_height then
    let x' := max 0 x
    let y' := max 0 y
    (x', y', min w (img_width - x'), min h (img_height - y'))
  else (x, y, w, h)

/-- Record `NormalizedRecord` behind an emitted YOLO line —
target class id plus normalized center/size, before 6-decimal formatting. -/
structure NormalizedRecord where
  sniperscope_class : Nat
  cx : ℚ
  cy : ℚ
  nw : ℚ
  nh : ℚ
deriving DecidableEq

/-- Transform + validation stages of `convert_visdrone_annotation`
(lines 289–304): compute the normalized center-based box and keep it only
when every value lies in the valid range. The divisions by `img_width` and
`img_height` raise `ZeroDivisionError` in Python when the divisor is zero;
that control path is `Except.error ()`. -/
def finish_transform (cls : Nat) (x y w h img_width img_height : Int) :
    Except Unit (Option NormalizedRecord) :=
  if img_width = 0 ∨ img_height = 0 then Except.error ()
  else
    let cx : ℚ := ((x : ℚ) + (w : ℚ) / 2) / (img_width : ℚ)
    let cy : ℚ := ((y : ℚ) + (h : ℚ) / 2) / (img_height : ℚ)
    let nw : ℚ := (w : ℚ) / (img_width : ℚ)
    let nh : ℚ := (h : ℚ) / (img_height : ℚ)
    if 0 ≤ cx ∧ cx ≤ 1 ∧ 0 ≤ cy ∧ cy ≤ 1 ∧
       0 < nw ∧ nw ≤ 1 ∧ 0 < nh ∧ nh ≤ 1 then
      Except.ok (some ⟨cls, cx, cy, nw, nh⟩)
    else Except.ok none

/-- Function `convert_visdrone_annotation` of the source (lines 186–312) up to but excluding the
final string formatting: parse → class filter/map → pre-clip size filter →
bounds check with clipping and post-clip size re-check (the re-check runs
only when the clip branch was taken, as in the source) → transform →
validate. `Except.ok none` is the source's `return None`. -/
def convert_record (line : String) (img_width img_height : Int) :
    Except Unit (Option NormalizedRecord) :=
  match parse_fields line with
  | none => Except.ok none
  | some (x, y, w, h, visdrone_class) =>
    match VISDRONE_TO_SNIPERSCOPE visdrone_class with
    | none => Except.ok none
    | some sniperscope_class =>
      if w < MIN_BOX_SIZE ∨ h < MIN_BOX_SIZE then Except.ok none
      else if x < 0 ∨ y < 0 ∨ x + w > img_width ∨ y + h > img_height then
        match clip_box x y w h img_width img_height with
        | (x2, y2, w2, h2) =>
          if w2 < MIN_BOX_SIZE ∨ h2 < MIN_BOX_SIZE then Except.ok none
          else finish_transform sniperscope_class x2 y2 w2 h2 img_width img_height
      else finish_transform sniperscope_class x y w h img_width img_height

/-- Round a rational to the nearest integer, ties to even — the rounding
CPython's fixed-point float formatting performs on the binary64 value. -/
def roundHalfEven (q : ℚ) : Int :=
  let f := ⌊q⌋
  let r := q - (f : ℚ)
  if r < 1 / 2 then f
  else if 1 / 2 < r then f + 1
  else if f % 2 = 0 then f else f + 1

/-- Left-pad a string with zeros to the given width. -/
def padZeros (s : String) (k : Nat) : String :=
  String.mk (List.replicate (k - s.length) '0') ++ s

/-- Format a non-negative rational with exactly 6 decimal places,
rounding ties to even (CPython `f"{v:.6f}"` on an exactly-represented
non-negative double). -/
def fmt6nn (q : ℚ) : String :=
  let m := (roundHalfEven (q * 1000000)).toNat
  toString (m / 1000000) ++ "." ++ padZeros (toString (m % 1000000)) 6

/-- Model of CPython `f"{v:.6f}"`. -/
def formatFixed6 (q : ℚ) : String :=
  if q < 0 then "-" ++ fmt6nn (-q) else fmt6nn q

/-- Output formatting (line 312):
`f"{sniperscope_class} {cx:.6f} {cy:.6f} {nw:.6f} {nh:.6f}"`. -/
def format_yolo (r : NormalizedRecord) : String :=
  toString r.sniperscope_class ++ " " ++ formatFixed6 r.cx ++ " " ++
    formatFixed6 r.cy ++ " " ++ formatFixed6 r.nw ++ " " ++ formatFixed6 r.nh

/-- Function `convert_visdrone_annotation` of the source (lines 186–312), string level: the YOLO
label line the source returns, `Except.ok none` for its `return None`, and
`Except.error ()` for the (provably unreachable) `ZeroDivisionError` path. -/
def convert_visdrone_ann (line : String) (img_width img_height : Int) :
    Except Unit (Option String) :=
  (convert_record line img_width img_height).map (Option.map format_yolo)

/-! ## Split processing (`process_split`, lines 319–443)

An image on disk is modelled by what the loop body observes of it:
its file name, the result of `cv2.imread` (`none` for an unreadable file,
otherwise the `(height, width)` of its shape), and the content of the
sibling annotation file (`none` when the file does not exist, otherwise
its list of lines). -/

structure ImageEntry where
  name : String
  /-- Outcome of `cv2.imread`: `none` if unreadable, else `(img_height, img_width)`. -/
  dims : Option (Nat × Nat)
  /-- Annotation file: `none` if missing, else its lines. -/
  annLines : Option (List String)
deriving DecidableEq

/-- Outcome of processing one split: the `processed` and `skipped` counters
returned by `process_split`, plus the externally visible writes — one
`(image copied, label file lines)` pair per committed image, in processing
order. -/
structure SplitOutcome where
  processed : Nat
  skipped : Nat
  outputs : List (String × List String)
deriving DecidableEq

/-- The per-line conversion as the split loop observes it (lines 420–424):
the returned string, with the (provably unreachable) exception path mapped
to "no output". The loop keeps a line's result only when it is truthy,
i.e. a non-`None`, non-empty string (`if yolo_line:`). -/
def line_output (line : String) (img_width img_height : Int) : Option String :=
  match convert_visdrone_ann line img_width img_height with
  | Except.ok o => o
  | Except.error _ => none

/-- List `yolo_lines` collected for one image (lines 418–424). -/
def survivors (lines : List String) (img_width img_height : Int) : List String :=
  lines.filterMap fun l => (line_output l img_width img_height).filter fun s => !s.isEmpty

/-- What `process_split` commits for a single image (lines 388–441):
`some (name, labelLines)` when the image is copied and its label file
written, `none` when the image is counted as skipped. Unreadable image,
missing annotation file, or zero surviving lines all skip. -/
def image_commit (img : ImageEntry) : Option (String × List String) :=
  match img.dims with
  | none => none
  | some (img_height, img_width) =>
    match img.annLines with
    | none => none
    | some ls =>
      let ys := survivors ls (img_width : Int) (img_height : Int)
      if ys = [] then none else some (img.name, ys)

/-- The image loop of `process_split` (lines 382–443): fold over the
split's image files, counting and committing per image. -/
def process_images : List ImageEntry → SplitOutcome
  | [] => ⟨0, 0, []⟩
  | img :: rest =>
    let r := process_images rest
    match img.dims with
    | none => ⟨r.processed, r.skipped + 1, r.outputs⟩
    | some (img_height, img_width) =>
      match img.annLines with
      | none => ⟨r.processed, r.skipped + 1, r.outputs⟩
      | some ls =>
        let ys := survivors ls (img_width : Int) (img_height : Int)
        if ys = [] then ⟨r.processed, r.skipped + 1, r.outputs⟩
        else ⟨r.processed + 1, r.skipped, (img.name, ys) :: r.outputs⟩

/-- Function `process_split` (lines 319–443). The split's image directory is
modelled as `Option (List ImageEntry)`: `none` when
`{visdrone_root}/VisDrone2019-DET-{split}/images` does not exist, in which
case the function warns and returns `(0, 0)` (lines 361–363). -/
def process_split : Option (List ImageEntry) → SplitOutcome
  | none => ⟨0, 0, []⟩
  | some imgs => process_images imgs

/-! ## Run orchestration (`main`, lines 450–569) -/

/-- The dataset configuration file `main` writes (lines 544–567): a
transcription of the fields of the literal f-string written to
`{output_root}/dataset.yaml` — absolute root path, the two fixed relative
image-directory paths, the class count `nc: 4`, and the three `names`
entries `0: person`, `2: car`, `3: truck`. -/
structure DatasetYaml where
  fileName : String
  path : String
  train : String
  val : String
  nc : Nat
  names : List (Nat × String)
deriving DecidableEq

/-- The manifest as built by `main` for a given absolute output root. -/
def dataset_yaml (output_root_abs : String) : DatasetYaml :=
  { fileName := "dataset.yaml"
  , path := output_root_abs
  , train := "images/train"
  , val := "images/val"
  , nc := 4
  , names := [(0, "person"), (2, "car"), (3, "truck")] }

/-- Result of one run of `main` after argument parsing: the per-split
results in order, the summed totals, and the single dataset configuration
written at the end. -/
structure RunResult where
  perSplit : List (String × SplitOutcome)
  totalProcessed : Nat
  totalSkipped : Nat
  manifest : DatasetYaml
deriving DecidableEq

/-- Function `main` (lines 450–569) after argument parsing. The source filesystem is
modelled as a map from split name to the split's image directory
(`none` when `{visdrone_root}/VisDrone2019-DET-{split}/images` is absent —
in particular, when the source root itself is missing, every split maps to
`none`). `main` performs no existence check of its own on the source root:
it loops over the requested splits, sums the counters, and always writes
the dataset configuration once at the end. -/
def main_run (fs : String → Option (List ImageEntry)) (splits : List String)
    (output_root_abs : String) : RunResult :=
  let per := splits.map fun s => (s, process_split (fs s))
  { perSplit := per
  , totalProcessed := (per.map fun p => p.2.processed).sum
  , totalSkipped := (per.map fun p => p.2.skipped).sum
  , manifest := dataset_yaml output_root_abs }


/-! ## Helper lemmas -/

/-- Success branch of the transform stage: whenever it returns a record,
the record was built from the given box and passed the range validation. -/
theorem finish_transform_ok_some {cls : Nat} {x y w h W H : Int}
    {r : NormalizedRecord}
    (hr : finish_transform cls x y w h W H = Except.ok (some r)) :
    r.sniperscope_class = cls ∧
    r.cx = ((x : ℚ) + (w : ℚ) / 2) / (W : ℚ) ∧
    r.cy = ((y : ℚ) + (h : ℚ) / 2) / (H : ℚ) ∧
    r.nw = (w : ℚ) / (W : ℚ) ∧ r.nh = (h : ℚ) / (H : ℚ) ∧
    0 ≤ r.cx ∧ r.cx ≤ 1 ∧ 0 ≤ r.cy ∧ r.cy ≤ 1 ∧
    0 < r.nw ∧ r.nw ≤ 1 ∧ 0 < r.nh ∧ r.nh ≤ 1 := by
  simp only [finish_transform] at hr
  split at hr
  · exact absurd hr (by simp)
  · split at hr
    · next hcond =>
      simp only [Except.ok.injEq, Option.some.injEq] at hr
      subst hr
      refine ⟨rfl, rfl, rfl, rfl, rfl, ?_⟩
      exact hcond
    · exact absurd hr (by simp)

/-- Rejection cannot come out of the transform stage as an exception when
both image dimensions are non-zero. -/
theorem finish_transform_total {cls : Nat} {x y w h W H : Int}
    (hW : W ≠ 0) (hH : H ≠ 0) :
    ∃ o, finish_transform cls x y w h W H = Except.ok o := by
  simp only [finish_transform]
  rw [if_neg (by tauto)]
  split
  · exact ⟨_, rfl⟩
  · exact ⟨none, rfl⟩

/-! ## Claim C1 -/

/-- C1: for every annotation line and image dimensions on which the
conversion does not reject (the conversion returns a record rather than
`None`), the emitted normalized record satisfies `0 ≤ centerX ≤ 1`,
`0 ≤ centerY ≤ 1`, `0 < width ≤ 1` and `0 < height ≤ 1`. -/
theorem claim_C1_normalized_invariant (line : String) (W H : Int)
    (r : NormalizedRecord)
    (h : convert_record line W H = Except.ok (some r)) :
    0 ≤ r.cx ∧ r.cx ≤ 1 ∧ 0 ≤ r.cy ∧ r.cy ≤ 1 ∧
    0 < r.nw ∧ r.nw ≤ 1 ∧ 0 < r.nh ∧ r.nh ≤ 1 := by
  unfold convert_record at h
  split at h
  · simp at h
  · split at h
    · simp at h
    · split at h
      · simp at h
      · split at h
        · split at h
          split at h
          · simp at h
          · exact (finish_transform_ok_some h).2.2.2.2.2
        · exact (finish_transform_ok_some h).2.2.2.2.2

/-- Witness for C1 at the docstring's example line on a 1280x720 image. -/
theorem claim_C1_witness :
    (0:ℚ) ≤ 25/256 ∧ (25:ℚ)/256 ≤ 1 ∧ (0:ℚ) ≤ 25/72 ∧ (25:ℚ)/72 ≤ 1 ∧
    (0:ℚ) < 5/128 ∧ (5:ℚ)/128 ≤ 1 ∧ (0:ℚ) < 5/36 ∧ (5:ℚ)/36 ≤ 1 :=
  claim_C1_normalized_invariant "100,200,50,100,1,1,0,0" 1280 720
    ⟨0, 25/256, 25/72, 5/128, 5/36⟩ (by
      have hp : parse_fields "100,200,50,100,1,1,0,0" = some (100, 200, 50, 100, 1) := rfl
      simp only [convert_record, hp, VISDRONE_TO_SNIPERSCOPE, MIN_BOX_SIZE, finish_transform]
      norm_num)

/-! ## Decimal formatting evaluation lemmas -/

/-- Round-half-even evaluation: fractional part below one half. -/
theorem roundHalfEven_eq_floor {q : ℚ} {f : Int}
    (h1 : ⌊q⌋ = f) (h2 : q - (f : ℚ) < 1 / 2) : roundHalfEven q = f := by
  simp only [roundHalfEven, h1]
  rw [if_pos h2]

/-- Round-half-even evaluation: fractional part above one half. -/
theorem roundHalfEven_eq_ceil {q : ℚ} {f : Int}
    (h1 : ⌊q⌋ = f) (h2 : 1 / 2 < q - (f : ℚ)) : roundHalfEven q = f + 1 := by
  simp only [roundHalfEven, h1]
  rw [if_neg (by linarith), if_pos h2]

/-- Round-half-even evaluation: exact tie with even floor rounds down. -/
theorem roundHalfEven_tie_even {q : ℚ} {f : Int}
    (h1 : ⌊q⌋ = f) (h2 : q - (f : ℚ) = 1 / 2) (h3 : f % 2 = 0) :
    roundHalfEven q = f := by
  simp only [roundHalfEven, h1]
  rw [if_neg (by rw [h2]; exact lt_irrefl _), if_neg (by rw [h2]; exact lt_irrefl _),
    if_pos h3]

/-- Evaluation of the 6-decimal formatter at a non-negative rational from
the rounded numerator. -/
theorem formatFixed6_eval {q : ℚ} {m : Nat} (h0 : ¬ q < 0)
    (h : roundHalfEven (q * 1000000) = (m : Int)) :
    formatFixed6 q =
      toString (m / 1000000) ++ "." ++ padZeros (toString (m % 1000000)) 6 := by
  simp only [formatFixed6, fmt6nn, h, if_neg h0, Int.toNat_natCast]

/-! ## Claim C2 -/

/-- C2 (code bug): on the docstring's own example — line
`"100,200,50,100,1,1,0,0"`, image 1280x720 — the conversion emits
`"0 0.097656 0.347222 0.039062 0.138889"`: the normalized width
`50/1280 = 0.0390625` is exactly representable and CPython's 6-decimal
formatting rounds the tie to even, producing `0.039062`, not the
`0.039063` stated by the claim and by the function's docstring
(line 223). -/
theorem claim_C2_literal_line_bug :
    convert_visdrone_ann "100,200,50,100,1,1,0,0" 1280 720 =
      Except.ok (some "0 0.097656 0.347222 0.039062 0.138889") ∧
    "0 0.097656 0.347222 0.039062 0.138889" ≠
      "0 0.097656 0.347222 0.039063 0.138889" := by
  constructor
  · have hr : convert_record "100,200,50,100,1,1,0,0" 1280 720 =
        Except.ok (some ⟨0, 25/256, 25/72, 5/128, 5/36⟩) := by
      have hp : parse_fields "100,200,50,100,1,1,0,0" = some (100, 200, 50, 100, 1) := rfl
      simp only [convert_record, hp, VISDRONE_TO_SNIPERSCOPE, MIN_BOX_SIZE, finish_transform]
      norm_num
    have h1 : formatFixed6 ((25:ℚ)/256) = "0.097656" := by
      have h : roundHalfEven ((25:ℚ)/256 * 1000000) = ((97656 : Nat) : Int) :=
        roundHalfEven_eq_floor (by push_cast; norm_num) (by push_cast; norm_num)
      rw [formatFixed6_eval (by norm_num) h]
      rfl
    have h2 : formatFixed6 ((25:ℚ)/72) = "0.347222" := by
      have h : roundHalfEven ((25:ℚ)/72 * 1000000) = ((347222 : Nat) : Int) :=
        roundHalfEven_eq_floor (by push_cast; norm_num) (by push_cast; norm_num)
      rw [formatFixed6_eval (by norm_num) h]
      rfl
    have h3 : formatFixed6 ((5:ℚ)/128) = "0.039062" := by
      have h : roundHalfEven ((5:ℚ)/128 * 1000000) = ((39062 : Nat) : Int) :=
        roundHalfEven_tie_even (by push_cast; norm_num) (by push_cast; norm_num)
          (by norm_num)
      rw [formatFixed6_eval (by norm_num) h]
      rfl
    have h4 : formatFixed6 ((5:ℚ)/36) = "0.138889" := by
      have h : roundHalfEven ((5:ℚ)/36 * 1000000) = ((138889 : Nat) : Int) := by
        have := roundHalfEven_eq_ceil (f := 138888) (q := (5:ℚ)/36 * 1000000)
          (by norm_num) (by push_cast; norm_num)
        rw [this]; norm_num
      rw [formatFixed6_eval (by norm_num) h]
      rfl
    have hf : format_yolo ⟨0, 25/256, 25/72, 5/128, 5/36⟩ =
        "0 0.097656 0.347222 0.039062 0.138889" := by
      simp only [format_yolo]
      rw [h1, h2, h3, h4]
      rfl
    unfold convert_visdrone_ann
    rw [hr]
    simp only [Except.map, Option.map, hf]
  · decide

/-! ## Path lemmas for the converter control flow -/

/-- Path: parse failure returns the rejection value. -/
theorem convert_record_parse_none {line : String} {W H : Int}
    (hp : parse_fields line = none) :
    convert_record line W H = Except.ok none := by
  simp [convert_record, hp]

/-- Path: parsed class without a mapping entry returns the rejection
value. -/
theorem convert_record_unmapped {line : String} {W H x y w h c : Int}
    (hp : parse_fields line = some (x, y, w, h, c))
    (hm : VISDRONE_TO_SNIPERSCOPE c = none) :
    convert_record line W H = Except.ok none := by
  simp [convert_record, hp, hm]

/-- Path: a pre-clip sub-minimum box returns the rejection value. -/
theorem convert_record_presize {line : String} {W H x y w h c : Int} {cls : Nat}
    (hp : parse_fields line = some (x, y, w, h, c))
    (hm : VISDRONE_TO_SNIPERSCOPE c = some cls)
    (hsz : w < MIN_BOX_SIZE ∨ h < MIN_BOX_SIZE) :
    convert_record line W H = Except.ok none := by
  simp [convert_record, hp, hm, if_pos hsz]

/-- Path: clip branch taken, post-clip box sub-minimum, rejection. -/
theorem convert_record_postsize {line : String}
    {W H x y w h c x2 y2 w2 h2 : Int} {cls : Nat}
    (hp : parse_fields line = some (x, y, w, h, c))
    (hm : VISDRONE_TO_SNIPERSCOPE c = some cls)
    (hsz : ¬(w < MIN_BOX_SIZE ∨ h < MIN_BOX_SIZE))
    (hclip : x < 0 ∨ y < 0 ∨ x + w > W ∨ y + h > H)
    (hcb : clip_box x y w h W H = (x2, y2, w2, h2))
    (hsz2 : w2 < MIN_BOX_SIZE ∨ h2 < MIN_BOX_SIZE) :
    convert_record line W H = Except.ok none := by
  simp only [convert_record, hp, hm, if_neg hsz, if_pos hclip, hcb, if_pos hsz2]

/-- Path: clip branch taken and the clipped box passes the size re-check;
the transform runs on the clipped coordinates. -/
theorem convert_record_clip_path {line : String}
    {W H x y w h c x2 y2 w2 h2 : Int} {cls : Nat}
    (hp : parse_fields line = some (x, y, w, h, c))
    (hm : VISDRONE_TO_SNIPERSCOPE c = some cls)
    (hsz : ¬(w < MIN_BOX_SIZE ∨ h < MIN_BOX_SIZE))
    (hclip : x < 0 ∨ y < 0 ∨ x + w > W ∨ y + h > H)
    (hcb : clip_box x y w h W H = (x2, y2, w2, h2))
    (hsz2 : ¬(w2 < MIN_BOX_SIZE ∨ h2 < MIN_BOX_SIZE)) :
    convert_record line W H = finish_transform cls x2 y2 w2 h2 W H := by
  simp only [convert_record, hp, hm, if_neg hsz, if_pos hclip, hcb, if_neg hsz2]

/-- Path: box inside the image; the transform runs on the unchanged
coordinates. -/
theorem convert_record_noclip_path {line : String} {W H x y w h c : Int}
    {cls : Nat}
    (hp : parse_fields line = some (x, y, w, h, c))
    (hm : VISDRONE_TO_SNIPERSCOPE c = some cls)
    (hsz : ¬(w < MIN_BOX_SIZE ∨ h < MIN_BOX_SIZE))
    (hclip : ¬(x < 0 ∨ y < 0 ∨ x + w > W ∨ y + h > H)) :
    convert_record line W H = finish_transform cls x y w h W H := by
  simp only [convert_record, hp, hm, if_neg hsz, if_neg hclip]

/-! ## Claim C3 -/

/-- C3: a box that leaves the image is replaced by the clamped/shrunk box
`(max 0 x, max 0 y, min w (W - x'), min h (H - y'))` before the post-clip
size check and the transform, and an in-bounds box is used unchanged; in
particular, for image 1280x720 and source box x=1270, y=700, w=50, h=50
the clipped box has w=10 and h=20, and feeding that line through the whole
conversion transforms the clipped box. -/
theorem claim_C3_clipping :
    (∀ x y w h W H : Int,
      ((x < 0 ∨ y < 0 ∨ x + w > W ∨ y + h > H) →
        clip_box x y w h W H =
          (max 0 x, max 0 y, min w (W - max 0 x), min h (H - max 0 y))) ∧
      (¬(x < 0 ∨ y < 0 ∨ x + w > W ∨ y + h > H) →
        clip_box x y w h W H = (x, y, w, h))) ∧
    (∀ (line : String) (W H x y w h c x2 y2 w2 h2 : Int) (cls : Nat),
      parse_fields line = some (x, y, w, h, c) →
      VISDRONE_TO_SNIPERSCOPE c = some cls →
      ¬(w < MIN_BOX_SIZE ∨ h < MIN_BOX_SIZE) →
      (x < 0 ∨ y < 0 ∨ x + w > W ∨ y + h > H) →
      clip_box x y w h W H = (x2, y2, w2, h2) →
      ¬(w2 < MIN_BOX_SIZE ∨ h2 < MIN_BOX_SIZE) →
      convert_record line W H = finish_transform cls x2 y2 w2 h2 W H) ∧
    (∀ (line : String) (W H x y w h c : Int) (cls : Nat),
      parse_fields line = some (x, y, w, h, c) →
      VISDRONE_TO_SNIPERSCOPE c = some cls →
      ¬(w < MIN_BOX_SIZE ∨ h < MIN_BOX_SIZE) →
      ¬(x < 0 ∨ y < 0 ∨ x + w > W ∨ y + h > H) →
      convert_record line W H = finish_transform cls x y w h W H) ∧
    clip_box 1270 700 50 50 1280 720 = (1270, 700, 10, 20) ∧
    convert_record "1270,700,50,50,1,1,0,0" 1280 720 =
      Except.ok (some ⟨0, 255/256, 71/72, 1/128, 1/36⟩) := by
  refine ⟨?_, ?_, ?_, by decide, ?_⟩
  · intro x y w h W H
    constructor
    · intro hc
      simp only [clip_box]
      rw [if_pos hc]
    · intro hc
      simp only [clip_box]
      rw [if_neg hc]
  · intro line W H x y w h c x2 y2 w2 h2 cls hp hm hsz hclip hcb hsz2
    exact convert_record_clip_path hp hm hsz hclip hcb hsz2
  · intro line W H x y w h c cls hp hm hsz hclip
    exact convert_record_noclip_path hp hm hsz hclip
  · have hp : parse_fields "1270,700,50,50,1,1,0,0" = some (1270, 700, 50, 50, 1) := rfl
    simp only [convert_record, hp, VISDRONE_TO_SNIPERSCOPE, MIN_BOX_SIZE, clip_box,
      finish_transform]
    norm_num

/-- Witness for C3: the clip characterization applied at a concrete
out-of-bounds box, and the unchanged-box path applied at a concrete
in-bounds line. -/
theorem claim_C3_witness :
    clip_box (-5) 10 50 50 1280 720 =
      (max 0 (-5), max 0 10, min 50 (1280 - max 0 (-5)), min 50 (720 - max 0 10)) ∧
    convert_record "5,6,50,50,1,1,0,0" 1280 720 = finish_transform 0 5 6 50 50 1280 720 :=
  ⟨(claim_C3_clipping.1 (-5) 10 50 50 1280 720).1 (by norm_num),
   claim_C3_clipping.2.2.1 "5,6,50,50,1,1,0,0" 1280 720 5 6 50 50 1 0 rfl rfl
     (by decide) (by decide)⟩

/-! ## Claim C4 -/

/-- Membership of a mapped target class id in the sparse target set. -/
theorem mapped_class_cases {c : Int} {t : Nat}
    (h : VISDRONE_TO_SNIPERSCOPE c = some t) :
    ((c = 1 ∨ c = 2) ∧ t = 0) ∨ (c = 4 ∧ t = 2) ∨
    ((c = 5 ∨ c = 6 ∨ c = 9) ∧ t = 3) := by
  unfold VISDRONE_TO_SNIPERSCOPE at h
  split_ifs at h <;> simp_all

/-- Every accepted line owes its emitted class to the mapping table applied
to the parsed source class id. -/
theorem class_of_ok_some {line : String} {W H : Int} {r : NormalizedRecord}
    (h : convert_record line W H = Except.ok (some r)) :
    ∃ x y w h' c, parse_fields line = some (x, y, w, h', c) ∧
      VISDRONE_TO_SNIPERSCOPE c = some r.sniperscope_class := by
  rcases hp : parse_fields line with _ | ⟨x, y, w, h', c⟩
  · rw [convert_record_parse_none hp] at h
    simp at h
  · rcases hm : VISDRONE_TO_SNIPERSCOPE c with _ | cls
    · rw [convert_record_unmapped hp hm] at h
      simp at h
    · by_cases hsz : w < MIN_BOX_SIZE ∨ h' < MIN_BOX_SIZE
      · rw [convert_record_presize hp hm hsz] at h
        simp at h
      · by_cases hclip : x < 0 ∨ y < 0 ∨ x + w > W ∨ y + h' > H
        · rcases hcb : clip_box x y w h' W H with ⟨x2, y2, w2, h2⟩
          by_cases hsz2 : w2 < MIN_BOX_SIZE ∨ h2 < MIN_BOX_SIZE
          · rw [convert_record_postsize hp hm hsz hclip hcb hsz2] at h
            simp at h
          · rw [convert_record_clip_path hp hm hsz hclip hcb hsz2] at h
            exact ⟨x, y, w, h', c, rfl, by
              rw [(finish_transform_ok_some h).1]; exact hm⟩
        · rw [convert_record_noclip_path hp hm hsz hclip] at h
          exact ⟨x, y, w, h', c, rfl, by
            rw [(finish_transform_ok_some h).1]; exact hm⟩

/-- C4: a line produces output only when its source class id is one of
{1,2,4,5,6,9}; the emitted target id is 0 for sources 1 and 2, 2 for
source 4, and 3 for sources 5, 6 and 9, so every emitted target id lies
in {0,2,3}; class 5 maps to 3, and a line whose class field parses to
3 never produces output. -/
theorem claim_C4_class_mapping :
    (∀ (c : Int) (t : Nat), VISDRONE_TO_SNIPERSCOPE c = some t →
      ((c = 1 ∨ c = 2) ∧ t = 0) ∨ (c = 4 ∧ t = 2) ∨
      ((c = 5 ∨ c = 6 ∨ c = 9) ∧ t = 3)) ∧
    (∀ (line : String) (W H : Int) (r : NormalizedRecord),
      convert_record line W H = Except.ok (some r) →
      (r.sniperscope_class = 0 ∨ r.sniperscope_class = 2 ∨
        r.sniperscope_class = 3) ∧
      ∃ x y w h c, parse_fields line = some (x, y, w, h, c) ∧
        VISDRONE_TO_SNIPERSCOPE c = some r.sniperscope_class) ∧
    VISDRONE_TO_SNIPERSCOPE 5 = some 3 ∧
    (∀ (line : String) (W H : Int),
      pyInt (field line 5) = some 3 →
      convert_visdrone_ann line W H = Except.ok none) := by
  refine ⟨fun c t h => mapped_class_cases h, ?_, by decide, ?_⟩
  · intro line W H r h
    obtain ⟨x, y, w, h', c, hp, hm⟩ := class_of_ok_some h
    rcases mapped_class_cases hm with ⟨-, ht⟩ | ⟨-, ht⟩ | ⟨-, ht⟩ <;>
      exact ⟨by omega, x, y, w, h', c, hp, hm⟩
  · intro line W H h5
    by_cases hlen : (split_commas (strip line.data)).length < 8
    · have hp : parse_fields line = none := by
        simp [parse_fields, if_pos hlen]
      unfold convert_visdrone_ann
      rw [convert_record_parse_none hp]
      rfl
    · rcases h0 : pyInt (field line 0) with _ | x
      · have hp : parse_fields line = none := by
          simp [parse_fields, if_neg hlen, h0]
        unfold convert_visdrone_ann
        rw [convert_record_parse_none hp]
        rfl
      · rcases h1 : pyInt (field line 1) with _ | y
        · have hp : parse_fields line = none := by
            simp [parse_fields, if_neg hlen, h0, h1]
          unfold convert_visdrone_ann
          rw [convert_record_parse_none hp]
          rfl
        · rcases h2 : pyInt (field line 2) with _ | w
          · have hp : parse_fields line = none := by
              simp [parse_fields, if_neg hlen, h0, h1, h2]
            unfold convert_visdrone_ann
            rw [convert_record_parse_none hp]
            rfl
          · rcases h3 : pyInt (field line 3) with _ | h
            · have hp : parse_fields line = none := by
                simp [parse_fields, if_neg hlen, h0, h1, h2, h3]
              unfold convert_visdrone_ann
              rw [convert_record_parse_none hp]
              rfl
            · have hp : parse_fields line = some (x, y, w, h, 3) := by
                simp [parse_fields, if_neg hlen, h0, h1, h2, h3, h5]
              unfold convert_visdrone_ann
              rw [convert_record_unmapped hp (by decide)]
              rfl

/-- Witness for C4: a concrete bicycle line (class 3) is rejected. -/
theorem claim_C4_witness :
    convert_visdrone_ann "10,10,50,50,1,3,0,0" 1280 720 = Except.ok none :=
  claim_C4_class_mapping.2.2.2 "10,10,50,50,1,3,0,0" 1280 720 rfl

/-! ## Claim C5 -/

/-- C5: the size filter accepts a box iff both dimensions reach
`MIN_BOX_SIZE = 10`; it runs on the raw box and again on the clipped box
whenever clipping occurred, so a 9-pixel dimension at either stage rejects
the line, while a 10x10 box passes through to an emitted record when
otherwise valid. -/
theorem claim_C5_size_filter :
    MIN_BOX_SIZE = 10 ∧
    (∀ (line : String) (W H x y w h c : Int) (cls : Nat),
      parse_fields line = some (x, y, w, h, c) →
      VISDRONE_TO_SNIPERSCOPE c = some cls →
      w < MIN_BOX_SIZE ∨ h < MIN_BOX_SIZE →
      convert_record line W H = Except.ok none) ∧
    (∀ (line : String) (W H x y w h c x2 y2 w2 h2 : Int) (cls : Nat),
      parse_fields line = some (x, y, w, h, c) →
      VISDRONE_TO_SNIPERSCOPE c = some cls →
      ¬(w < MIN_BOX_SIZE ∨ h < MIN_BOX_SIZE) →
      (x < 0 ∨ y < 0 ∨ x + w > W ∨ y + h > H) →
      clip_box x y w h W H = (x2, y2, w2, h2) →
      w2 < MIN_BOX_SIZE ∨ h2 < MIN_BOX_SIZE →
      convert_record line W H = Except.ok none) ∧
    convert_record "0,0,10,10,1,1,0,0" 1280 720 =
      Except.ok (some ⟨0, 1/256, 1/144, 1/128, 1/72⟩) ∧
    convert_record "0,0,9,20,1,1,0,0" 1280 720 = Except.ok none ∧
    convert_record "1271,700,50,50,1,1,0,0" 1280 720 = Except.ok none := by
  refine ⟨rfl, ?_, ?_, ?_, by decide, by decide⟩
  · intro line W H x y w h c cls hp hm hsz
    exact convert_record_presize hp hm hsz
  · intro line W H x y w h c x2 y2 w2 h2 cls hp hm hsz hclip hcb hsz2
    exact convert_record_postsize hp hm hsz hclip hcb hsz2
  · have hp : parse_fields "0,0,10,10,1,1,0,0" = some (0, 0, 10, 10, 1) := rfl
    simp only [convert_record, hp, VISDRONE_TO_SNIPERSCOPE, MIN_BOX_SIZE, finish_transform]
    norm_num

/-- Witness for C5: a concrete pre-clip rejection of a 9-pixel-wide box. -/
theorem claim_C5_witness :
    convert_record "3,4,9,50,1,1,0,0" 640 480 = Except.ok none :=
  claim_C5_size_filter.2.1 "3,4,9,50,1,1,0,0" 640 480 3 4 9 50 1 0 rfl rfl
    (by decide)

/-! ## Claim C6 -/

/-- Per-image characterization of the split loop by induction over the
image list. -/
theorem process_images_spec (imgs : List ImageEntry) :
    (process_images imgs).outputs = imgs.filterMap image_commit ∧
    (process_images imgs).processed = (imgs.filterMap image_commit).length ∧
    (process_images imgs).processed + (process_images imgs).skipped =
      imgs.length := by
  induction imgs with
  | nil => simp [process_images]
  | cons img rest ih =>
    obtain ⟨ho, hp, hs⟩ := ih
    rcases hd : img.dims with _ | ⟨ihh, iww⟩
    · have hc : image_commit img = none := by simp [image_commit, hd]
      simp only [process_images, hd, List.filterMap_cons, hc]
      refine ⟨ho, hp, ?_⟩
      simp only [List.length_cons]
      omega
    · rcases ha : img.annLines with _ | ls
      · have hc : image_commit img = none := by simp [image_commit, hd, ha]
        simp only [process_images, hd, ha, List.filterMap_cons, hc]
        refine ⟨ho, hp, ?_⟩
        simp only [List.length_cons]
        omega
      · by_cases hys : survivors ls (iww : Int) (ihh : Int) = []
        · have hc : image_commit img = none := by
            simp [image_commit, hd, ha, hys]
          simp only [process_images, hd, ha, List.filterMap_cons, hc, if_pos hys]
          refine ⟨ho, hp, ?_⟩
          simp only [List.length_cons]
          omega
        · have hc : image_commit img =
              some (img.name, survivors ls (iww : Int) (ihh : Int)) := by
            simp [image_commit, hd, ha, hys]
          simp only [process_images, hd, ha, List.filterMap_cons, hc, if_neg hys]
          refine ⟨by simp [ho], by simp [hp], ?_⟩
          simp only [List.length_cons]
          omega

/-- C6: per-image commit is all-or-nothing — the writes of a split are
exactly one image copy plus one label file holding exactly the surviving
records for each image with a non-empty surviving set, `processed` counts
exactly those images, `processed + skipped` covers every image, and an
image whose surviving set is empty contributes no write at all. -/
theorem claim_C6_per_image_commit :
    (∀ imgs : List ImageEntry,
      (process_split (some imgs)).outputs = imgs.filterMap image_commit ∧
      (process_split (some imgs)).processed =
        (imgs.filterMap image_commit).length ∧
      (process_split (some imgs)).processed +
        (process_split (some imgs)).skipped = imgs.length) ∧
    (∀ (img : ImageEntry) (ihh iww : Nat) (ls : List String),
      img.dims = some (ihh, iww) → img.annLines = some ls →
      (survivors ls (iww : Int) (ihh : Int) ≠ [] →
        image_commit img =
          some (img.name, survivors ls (iww : Int) (ihh : Int))) ∧
      (survivors ls (iww : Int) (ihh : Int) = [] →
        image_commit img = none)) := by
  constructor
  · intro imgs
    exact process_images_spec imgs
  · intro img ihh iww ls hd ha
    constructor
    · intro hys
      simp [image_commit, hd, ha, hys]
    · intro hys
      simp [image_commit, hd, ha, hys]

/-- Witness for C6: a concrete image whose only annotation line is
malformed is committed nowhere. -/
theorem claim_C6_witness :
    image_commit ⟨"b.jpg", some (720, 1280), some ["bad line"]⟩ = none :=
  (claim_C6_per_image_commit.2 ⟨"b.jpg", some (720, 1280), some ["bad line"]⟩
    720 1280 ["bad line"] rfl rfl).2 (by decide)

/-! ## Claim C9 -/

/-- Any failing integer parse among fields 0–3 and 5 makes the parsing
stage reject. -/
theorem parse_fields_eq_none {line : String}
    (h : pyInt (field line 0) = none ∨ pyInt (field line 1) = none ∨
      pyInt (field line 2) = none ∨ pyInt (field line 3) = none ∨
      pyInt (field line 5) = none) :
    parse_fields line = none := by
  unfold parse_fields
  split
  · rfl
  · rcases h0 : pyInt (field line 0) with _ | x <;>
      rcases h1 : pyInt (field line 1) with _ | y <;>
      rcases h2 : pyInt (field line 2) with _ | w <;>
      rcases h3 : pyInt (field line 3) with _ | h4 <;>
      rcases h5 : pyInt (field line 5) with _ | c <;>
      simp_all

/-- C9: line parsing rejects without raising — fewer than 8 comma fields,
or an unparseable integer in fields 0–3 or 5, yields the rejection value
`Except.ok none` (not an exception); with at least 8 fields and all five
parses succeeding the parse stage succeeds, so trailing extra fields are
ignored, as the 10-field example shows. -/
theorem claim_C9_parse_rejection :
    (∀ (line : String) (W H : Int),
      (split_commas (strip line.data)).length < 8 →
      convert_visdrone_ann line W H = Except.ok none) ∧
    (∀ (line : String) (W H : Int),
      pyInt (field line 0) = none ∨ pyInt (field line 1) = none ∨
      pyInt (field line 2) = none ∨ pyInt (field line 3) = none ∨
      pyInt (field line 5) = none →
      convert_visdrone_ann line W H = Except.ok none) ∧
    (∀ (line : String) (x y w h c : Int),
      ¬((split_commas (strip line.data)).length < 8) →
      pyInt (field line 0) = some x → pyInt (field line 1) = some y →
      pyInt (field line 2) = some w → pyInt (field line 3) = some h →
      pyInt (field line 5) = some c →
      parse_fields line = some (x, y, w, h, c)) ∧
    parse_fields "1,2,3,4,5,6,7,8,99,100" = some (1, 2, 3, 4, 6) := by
  refine ⟨?_, ?_, ?_, rfl⟩
  · intro line W H hlen
    have hp : parse_fields line = none := by
      simp [parse_fields, if_pos hlen]
    unfold convert_visdrone_ann
    rw [convert_record_parse_none hp]
    rfl
  · intro line W H h
    unfold convert_visdrone_ann
    rw [convert_record_parse_none (parse_fields_eq_none h)]
    rfl
  · intro line x y w h c hlen h0 h1 h2 h3 h5
    simp [parse_fields, if_neg hlen, h0, h1, h2, h3, h5]

/-- Witness for C9: a three-field line is rejected, not raised on. -/
theorem claim_C9_witness :
    convert_visdrone_ann "1,2,3" 100 100 = Except.ok none :=
  claim_C9_parse_rejection.1 "1,2,3" 100 100 (by decide)

/-! ## Claim C10 -/

/-- Totality of the record-level conversion: no input reaches the
raising division. -/
theorem convert_record_total (line : String) (W H : Int) :
    ∃ o, convert_record line W H = Except.ok o := by
  rcases hp : parse_fields line with _ | ⟨x, y, w, h, c⟩
  · exact ⟨none, convert_record_parse_none hp⟩
  · rcases hm : VISDRONE_TO_SNIPERSCOPE c with _ | cls
    · exact ⟨none, convert_record_unmapped hp hm⟩
    · by_cases hsz : w < MIN_BOX_SIZE ∨ h < MIN_BOX_SIZE
      · exact ⟨none, convert_record_presize hp hm hsz⟩
      · by_cases hclip : x < 0 ∨ y < 0 ∨ x + w > W ∨ y + h > H
        · rcases hcb : clip_box x y w h W H with ⟨x2, y2, w2, h2⟩
          by_cases hsz2 : w2 < MIN_BOX_SIZE ∨ h2 < MIN_BOX_SIZE
          · exact ⟨none, convert_record_postsize hp hm hsz hclip hcb hsz2⟩
          · rw [convert_record_clip_path hp hm hsz hclip hcb hsz2]
            have hcb' := hcb
            simp only [clip_box, if_pos hclip, Prod.mk.injEq] at hcb'
            obtain ⟨hx2, hy2, hw2, hh2⟩ := hcb'
            simp only [MIN_BOX_SIZE] at hsz2
            push_neg at hsz2
            exact finish_transform_total (by omega) (by omega)
        · rw [convert_record_noclip_path hp hm hsz hclip]
          simp only [MIN_BOX_SIZE] at hsz
          push_neg at hsz hclip
          refine finish_transform_total (by omega) (by omega)

/-- Rejection before the transform whenever a dimension is non-positive:
the clip branch then shrinks the box below the minimum size. -/
theorem convert_record_nonpos (line : String) (W H : Int)
    (hWH : W ≤ 0 ∨ H ≤ 0) : convert_record line W H = Except.ok none := by
  rcases hp : parse_fields line with _ | ⟨x, y, w, h, c⟩
  · exact convert_record_parse_none hp
  · rcases hm : VISDRONE_TO_SNIPERSCOPE c with _ | cls
    · exact convert_record_unmapped hp hm
    · by_cases hsz : w < MIN_BOX_SIZE ∨ h < MIN_BOX_SIZE
      · exact convert_record_presize hp hm hsz
      · by_cases hclip : x < 0 ∨ y < 0 ∨ x + w > W ∨ y + h > H
        · rcases hcb : clip_box x y w h W H with ⟨x2, y2, w2, h2⟩
          have hcb' := hcb
          simp only [clip_box, if_pos hclip, Prod.mk.injEq] at hcb'
          obtain ⟨hx2, hy2, hw2, hh2⟩ := hcb'
          refine convert_record_postsize hp hm hsz hclip hcb ?_
          simp only [MIN_BOX_SIZE]
          omega
        · exfalso
          simp only [MIN_BOX_SIZE] at hsz
          push_neg at hsz hclip
          omega

/-- C10: the conversion is total — for every input line and all integer
image dimensions (including non-positive ones) it returns a value rather
than raising, and with a non-positive dimension it rejects before the
divisions are reached. -/
theorem claim_C10_totality :
    (∀ (line : String) (W H : Int), ∃ o,
      convert_visdrone_ann line W H = Except.ok o) ∧
    (∀ (line : String) (W H : Int), W ≤ 0 ∨ H ≤ 0 →
      convert_visdrone_ann line W H = Except.ok none) := by
  constructor
  · intro line W H
    obtain ⟨o, ho⟩ := convert_record_total line W H
    exact ⟨o.map format_yolo, by rw [convert_visdrone_ann, ho]; rfl⟩
  · intro line W H hWH
    rw [convert_visdrone_ann, convert_record_nonpos line W H hWH]
    rfl

/-- Witness for C10: a well-formed line on a negative-width image is
rejected, with no division executed. -/
theorem claim_C10_witness :
    convert_visdrone_ann "100,200,50,100,1,1,0,0" (-1) 720 = Except.ok none :=
  claim_C10_totality.2 "100,200,50,100,1,1,0,0" (-1) 720 (Or.inl (by norm_num))

/-! ## Claim C7 -/

/-- Sum of a constant-zero map. -/
theorem sum_map_zero {α : Type} (l : List α) :
    (l.map fun _ => (0 : Nat)).sum = 0 := by
  induction l with
  | nil => rfl
  | cons a t ih => simp [ih]

/-- C7 counterexample: with the source root missing (every split's image
directory absent), the run does not abort before split processing and
surfaces no error — it processes both default splits to `(0, 0)` and
still writes the dataset configuration. -/
theorem claim_C7_counterexample :
    main_run (fun _ => none) ["train", "val"] "/abs/out" =
      { perSplit := [("train", ⟨0, 0, []⟩), ("val", ⟨0, 0, []⟩)],
        totalProcessed := 0, totalSkipped := 0,
        manifest := dataset_yaml "/abs/out" } := rfl

/-- C7 amended: a missing source root is non-fatal — every split behaves
exactly like a split with a missing image directory, contributing
`SplitResult{0,0}`, and the run continues over all requested splits and
completes, manifest included; a missing individual split directory
likewise yields `SplitResult{0,0}` while the run goes on. -/
theorem claim_C7_missing_root_nonfatal :
    (∀ (splits : List String) (root : String),
      main_run (fun _ => none) splits root =
        { perSplit := splits.map fun s => (s, ⟨0, 0, []⟩),
          totalProcessed := 0, totalSkipped := 0,
          manifest := dataset_yaml root }) ∧
    (∀ dir : Option (List ImageEntry), dir = none →
      process_split dir = ⟨0, 0, []⟩) ∧
    (∀ (fs : String → Option (List ImageEntry)) (splits : List String)
      (root : String),
      (main_run fs splits root).perSplit =
        splits.map fun s => (s, process_split (fs s))) := by
  refine ⟨?_, ?_, fun _ _ _ => rfl⟩
  · intro splits root
    simp only [main_run]
    congr 1
    · rw [List.map_map]
      exact sum_map_zero splits
    · rw [List.map_map]
      exact sum_map_zero splits
  · intro dir h
    subst h
    rfl

/-- Witness for C7: the missing-directory no-op applied at `none`. -/
theorem claim_C7_witness :
    process_split (none : Option (List ImageEntry)) = ⟨0, 0, []⟩ :=
  claim_C7_missing_root_nonfatal.2.1 none rfl

/-! ## Claim C8 -/

/-- C8 counterexample: the emitted class-name table has 3 entries, not 4,
and the split subpaths are the fixed `images/train` and `images/val` even
when only a `test` split was processed. -/
theorem claim_C8_counterexample :
    (main_run (fun _ => none) ["test"] "/abs/out").manifest.names.length ≠ 4 ∧
    (main_run (fun _ => none) ["test"] "/abs/out").manifest.train =
      "images/train" ∧
    (main_run (fun _ => none) ["test"] "/abs/out").manifest.val =
      "images/val" :=
  ⟨by decide, rfl, rfl⟩

/-- C8 amended: after the split loop the run writes exactly one dataset
configuration, at `{outputRoot}/dataset.yaml`; it records the absolute
output root path, the fixed relative subpaths `images/train` and
`images/val` (independent of which splits were processed), the class
count 4, and the sparse three-entry id→name table
`{0: person, 2: car, 3: truck}`, which covers every target id the mapping
can emit. -/
theorem claim_C8_manifest :
    (∀ (fs : String → Option (List ImageEntry)) (splits : List String)
      (root : String), (main_run fs splits root).manifest = dataset_yaml root) ∧
    (∀ root : String, dataset_yaml root =
      { fileName := "dataset.yaml", path := root, train := "images/train",
        val := "images/val", nc := 4,
        names := [(0, "person"), (2, "car"), (3, "truck")] }) ∧
    (∀ root : String, (dataset_yaml root).names.map Prod.fst = [0, 2, 3]) ∧
    (∀ (root : String) (c : Int) (t : Nat),
      VISDRONE_TO_SNIPERSCOPE c = some t →
      t ∈ (dataset_yaml root).names.map Prod.fst) := by
  refine ⟨fun _ _ _ => rfl, fun _ => rfl, fun _ => rfl, ?_⟩
  intro root c t h
  rcases mapped_class_cases h with ⟨-, ht⟩ | ⟨-, ht⟩ | ⟨-, ht⟩ <;> subst ht <;>
    simp [dataset_yaml]

/-- Witness for C8: target id 3 (van/truck/bus) is covered by the emitted
names table. -/
theorem claim_C8_witness :
    (3 : Nat) ∈ ((dataset_yaml "/o").names.map Prod.fst) :=
  claim_C8_manifest.2.2.2 "/o" 5 3 rfl

end PrepareVisdrone
